import Mathlib

set_option maxHeartbeats 1600000

/- Verification development for the risk-assessment backend
   (src/routers/risk_assessment.py, endpoint assess_risk).

   Embedding conventions:
   - machine floats are modelled as rationals (exact arithmetic);
   - a fetched document (Python dict) is an association list of field names;
   - a stored scalar is either a number or a string; `Value.str` models the
     non-numeric strings, on which Python float()/int() raise ValueError and
     order comparisons raise TypeError;
   - fallible Python code is modelled with Except; an exception escaping the
     endpoint body is mapped to an HTTP error exactly as the handler does;
   - the model artifacts (scaler/selector/classifier and their declared
     feature-name lists) are loaded from pickle files outside the repository,
     so they are parameters of the embedding, abstracted as total functions;
   - np.argsort is modelled as the ascending sort of indices with ties broken
     by index (numpy's stable order), then reversed, as in the source;
   - the unseeded np.random.choice draw in the explainer fallback is modelled
     by an explicit index-list parameter;
   - wall-clock timestamps attached to the persisted snapshot are elided; the
     persisted content is the prediction-result record itself. -/

/-- A scalar fetched from the document store: a number, or a non-numeric
string (numeric conversions on it raise). -/
inductive Value where
  | num (q : ℚ)
  | str (s : String)
deriving DecidableEq, Repr

/-- A fetched document (`doc.to_dict()`), as an association list. -/
abbrev Doc := List (String × Value)

/-- Python `d.get(k)`: the first binding of key `k`, if any. -/
def docGet (d : Doc) (k : String) : Option Value :=
  (d.find? (fun p => p.1 = k)).map (fun p => p.2)

/-- Python `float(v)`: identity on numbers; `float()` of a non-numeric string
raises ValueError. -/
def pyFloat : Value → Except String ℚ
  | .num q => .ok q
  | .str s => .error ("could not convert string to float: " ++ s)

/-- Python `int(v)`: truncation toward zero on numbers; `int()` of a
non-numeric string raises ValueError. -/
def pyInt : Value → Except String ℚ
  | .num q => .ok ((Int.tdiv q.num (q.den : ℤ) : ℤ) : ℚ)
  | .str s => .error ("invalid literal for int with base 10: " ++ s)

/-- A numeric order-comparison context (`bmi < 18.5`): comparing a string
with a number raises TypeError. -/
def asNum : Value → Except String ℚ
  | .num q => .ok q
  | .str _ => .error "TypeError: order comparison not supported between str and float"

/-- The floor of a rational, written in executable form (equal to the
mathematical floor, see `ratFloor_eq_floor`). -/
def ratFloor (x : ℚ) : ℤ := x.num / (x.den : ℤ)

/-- Round to the nearest integer, ties to even (Python `round` semantics). -/
def roundHalfEven (x : ℚ) : ℤ :=
  if x - (ratFloor x : ℚ) < 1/2 then ratFloor x
  else if 1/2 < x - (ratFloor x : ℚ) then ratFloor x + 1
  else if ratFloor x % 2 = 0 then ratFloor x else ratFloor x + 1

/-- Python `round(x, d)`. -/
def roundTo (d : ℕ) (x : ℚ) : ℚ := (roundHalfEven (x * 10 ^ d) : ℚ) / 10 ^ d

/-- Lines 56-64: the BMI bucket (`bmi_category`). -/
def bmiCategory (bmi : ℚ) : ℚ :=
  if bmi < 37/2 then 0 else if bmi < 25 then 1 else if bmi < 30 then 2 else 3

/-- Line 65: `is_obese = 1 if bmi >= 30 else 0`. -/
def isObese (bmi : ℚ) : ℚ := if 30 ≤ bmi then 1 else 0

/-- Line 151: age-group display label. -/
def ageGroupLabel (q : ℚ) : String :=
  if q = 0 then "Young" else if q = 1 then "Middle-aged"
  else if q = 2 then "Older" else "Middle-aged"

/-- Line 152: smoker-status display label. -/
def smokerLabel (q : ℚ) : String :=
  if q = 0 then "Non-smoker" else if q = 1 then "Light smoker"
  else if q = 2 then "Moderate smoker" else if q = 3 then "Heavy smoker"
  else "Non-smoker"

/-- Line 154: blood-pressure-category display label. -/
def bpCategoryLabel (q : ℚ) : String :=
  if q = -1 then "Low" else if q = 0 then "Normal" else if q = 1 then "Elevated"
  else if q = 2 then "Stage 1" else if q = 3 then "Stage 2" else "Normal"

/-- Line 155: BMI-category display label. -/
def bmiCategoryLabel (q : ℚ) : String :=
  if q = 0 then "Underweight" else if q = 1 then "Normal"
  else if q = 2 then "Overweight" else if q = 3 then "Obese" else "Normal"

/-- Lines 72/76: `float(next((r.get("value") for r in results if
r.get("test_name") == name), default))`.  The first matching lab entry wins;
an entry with no `value` field yields `float(None)`, a TypeError. -/
def labFloat (results : List Doc) (name : String) (dflt : ℚ) : Except String ℚ :=
  match results.find? (fun r => docGet r "test_name" = some (.str name)) with
  | none => .ok dflt
  | some r =>
    match docGet r "value" with
    | none => .error "float argument must be a string or a real number, not NoneType"
    | some v => pyFloat v

/-- Line 82: `int(user.get("gender") == "male" and user.get("smoker_status", 0) > 0)`.
Python `and` short-circuits, so the `> 0` comparison (a TypeError on a string)
is only evaluated when the gender test is true. -/
def pyMaleSmoker (user : Doc) : Except String ℚ :=
  if docGet user "gender" = some (.str "male") then
    match (docGet user "smoker_status").getD (.num 0) with
    | .num q => .ok (if 0 < q then 1 else 0)
    | .str _ => .error "TypeError: order comparison not supported between str and int"
  else .ok 0

/-- Lines 68-86: the feature dictionary, built field by field in source order
(the first conversion that raises aborts the assembly). -/
def buildFeatures (user hyp meds : Doc) (results : List Doc)
    (bmi_category is_obese : ℚ) : Except String (List (String × ℚ)) := do
  let male : ℚ := if docGet user "gender" = some (.str "male") then 1 else 0
  let bpmeds ← pyInt ((docGet meds "bp_medication").getD (.num 0))
  let totChol ← labFloat results "Cholesterol" 180
  let sysBP ← pyFloat ((docGet hyp "systolic").getD (.num 120))
  let diaBP ← pyFloat ((docGet hyp "diastolic").getD (.num 80))
  let heartRate ← pyFloat ((docGet hyp "pulse").getD (.num 72))
  let glucose ← labFloat results "Glucose" 100
  let ageGroup ← pyInt ((docGet user "age_group").getD (.num 1))
  let smoker ← pyInt ((docGet user "smoker_status").getD (.num 0))
  let bpCat ← pyInt ((docGet hyp "bp_category").getD (.num 0))
  let maleSmoker ← pyMaleSmoker user
  let pre ← pyInt ((docGet hyp "prediabetes_indicator").getD (.num 0))
  let ins ← pyInt ((docGet hyp "insulin_resistance").getD (.num 0))
  let met ← pyInt ((docGet hyp "metabolic_syndrome").getD (.num 0))
  .ok [("male", male), ("BPMeds", bpmeds), ("totChol", totChol),
       ("sysBP", sysBP), ("diaBP", diaBP), ("heartRate", heartRate),
       ("glucose", glucose), ("age_group", ageGroup), ("smoker_status", smoker),
       ("is_obese", is_obese), ("bp_category", bpCat),
       ("bmi_category", bmi_category), ("male_smoker", maleSmoker),
       ("prediabetes_indicator", pre), ("insulin_resistance", ins),
       ("metabolic_syndrome", met)]

/-- Lines 56-86: derived BMI fields followed by the feature dictionary
(`bmi = measurements.get("bmi", 25.0)` with the default applied first). -/
def assembleFeatures (user meas hyp meds : Doc) (results : List Doc) :
    Except String (ℚ × List (String × ℚ)) := do
  let bmi ← asNum ((docGet meas "bmi").getD (.num 25))
  let fv ← buildFeatures user hyp meds results (bmiCategory bmi) (isObese bmi)
  .ok (bmi, fv)

/-- One explanation entry (models.schema.TopFeatures). -/
structure TopFeature where
  feature_name : String
  contribution_score : ℚ
deriving DecidableEq, Repr

/-- Lines 105-110: the base estimator behind a possibly-ensemble classifier,
as seen through attribute probing. -/
inductive BaseEst where
  | withImportances (imp : List ℚ)
  | withCoef (rows : List (List ℚ))
  | noSignal
deriving DecidableEq, Repr

/-- A fitted classifier: a voting wrapper (`named_estimators_`), a bagging
wrapper (`estimators_`), or a plain estimator. -/
inductive MLModel where
  | namedVoting (subs : List BaseEst)
  | ensembleList (subs : List BaseEst)
  | single (e : BaseEst)
deriving DecidableEq, Repr

/-- Lines 105-110: `get_base_model`.  `none` models the exception raised by
`next(iter(...))` or `[0]` on an empty wrapper (caught by the caller). -/
def getBaseModel : MLModel → Option BaseEst
  | .namedVoting subs => subs.head?
  | .ensembleList subs => subs.head?
  | .single e => some e

/-- Lines 115-126: the importance signal of the base estimator —
`feature_importances_` directly, or `np.abs(coef_[0])`; `none` when the
estimator exposes neither (or `coef_` is empty, an IndexError). -/
def extractVals : BaseEst → Option (List ℚ)
  | .withImportances imp => some imp
  | .withCoef rows => rows.head?.map (fun row => row.map (fun c => |c|))
  | .noSignal => none

/-- The importance values the explainer works from, if the try-block reaches
them. -/
def extracted (m : MLModel) : Option (List ℚ) := (getBaseModel m).bind extractVals

/-- The order that `np.argsort` sorts indices by: ascending value, ties broken
by ascending index (numpy stable order). -/
def argLe (v : List ℚ) (i j : ℕ) : Prop :=
  v.getD i 0 < v.getD j 0 ∨ (v.getD i 0 = v.getD j 0 ∧ i ≤ j)

instance (v : List ℚ) : DecidableRel (argLe v) := fun i j => by
  unfold argLe; infer_instance

/-- `np.argsort(v)`: indices of `v` sorted ascending by value (stable). -/
def argsortAsc (v : List ℚ) : List ℕ :=
  List.insertionSort (argLe v) (List.range v.length)

/-- Line 117/127: `np.argsort(vals)[::-1][:n]`. -/
def topIdx (v : List ℚ) (n : ℕ) : List ℕ := ((argsortAsc v).reverse).take n

/-- Line 119/129: the `1e-8` guard on the normalization denominator. -/
def epsTotal : ℚ := 1/100000000

/-- Line 118/128: the sum of the selected top-`n` values
(`importances[indices].sum()`). -/
def topSum (v : List ℚ) (n : ℕ) : ℚ :=
  ((topIdx v n).map (fun i => v.getD i 0)).sum

/-- Lines 115-134: the body of either importance branch, given the extracted
value list.  `none` models the IndexError raised by `feature_names[i]` when
an index falls outside the name list (caught, leading to the fallback). -/
def branchCompute (vals : List ℚ) (names : List String) (topN : ℕ) :
    Option (List TopFeature) :=
  let indices := topIdx vals topN
  if indices.all (fun i => i < names.length) then
    let topValues := indices.map (fun i => vals.getD i 0)
    let total := max topValues.sum epsTotal
    let normalized := topValues.map (fun v => v / total * 100)
    some ((indices.zip normalized).map
      (fun p => ⟨names.getD p.1 "", roundTo 1 p.2⟩))
  else none

/-- `np.linspace a b n` (endpoints included). -/
def linspace (a b : ℚ) (n : ℕ) : List ℚ :=
  if n = 1 then [a]
  else (List.range n).map (fun i => a + i * (b - a) / ((n : ℚ) - 1))

/-- Lines 137-144: the randomized fallback.  `fbIdx` is the index draw of
`np.random.choice(len(names), topN, replace=False)`: `topN` distinct indices
below `names.length` (the draw exists exactly when `topN ≤ names.length`). -/
def fallbackTop (names : List String) (fbIdx : List ℕ) (topN : ℕ) :
    List TopFeature :=
  let scores := linspace (4/5) (1/5) topN
  let total := scores.sum
  let normalized := scores.map (fun v => v / total * 100)
  (fbIdx.zip normalized).map (fun p => ⟨names.getD p.1 "", roundTo 1 p.2⟩)

/-- Lines 112-144: `top_features` (its `X_selected` argument is unused in the
source and therefore not modelled).  Any failure inside the try-block, or the
absence of an importance signal, falls through to the randomized fallback. -/
def topFeatures (m : MLModel) (names : List String) (fbIdx : List ℕ)
    (topN : ℕ := 3) : List TopFeature :=
  match (extracted m).bind (fun vals => branchCompute vals names topN) with
  | some out => out
  | none => fallbackTop names fbIdx topN

/-- A fitted model pipeline as loaded from the artifacts: declared input
schema (`scaler.feature_names_in_`), scaler, selector, and the classifier's
positive-class probability `predict_proba(...)[0][1]`. -/
structure Pipeline where
  schema : List String
  scale : List ℚ → List ℚ
  select : List ℚ → List ℚ
  predictProba1 : List ℚ → ℚ

/-- Lines 92-94 / 100-102: scale, select, predict. -/
def Pipeline.run (p : Pipeline) (x : List ℚ) : ℚ :=
  p.predictProba1 (p.select (p.scale x))

/-- `X[schema]` on a one-row DataFrame: reorder the columns to the declared
schema; a missing column raises KeyError. -/
def reindex (schema : List String) (fv : List (String × ℚ)) :
    Except String (List ℚ) :=
  schema.mapM (fun name =>
    match fv.find? (fun p => p.1 = name) with
    | some p => Except.ok p.2
    | none => Except.error ("KeyError: " ++ name))

/-- models.schema.DerivedFeatures (lines 150-162). -/
structure DerivedFeatures where
  age_group : String
  smoker_status : String
  is_obese : Bool
  bp_category : String
  bmi_category : String
  bmi : ℚ
  pulse_pressure : ℚ
  male_smoker : Bool
  prediabetes_indicator : Bool
  insulin_resistance : Bool
  metabolic_syndrome : Bool
deriving DecidableEq, Repr

/-- models.schema.RiskPredictionOutput (lines 164-171). -/
structure RiskPredictionOutput where
  diabetes_risk : ℚ
  hypertension_risk : ℚ
  derived_features : DerivedFeatures
  input_values : List (String × ℚ)
  top_diabetes_features : List TopFeature
  top_hypertension_features : List TopFeature
deriving DecidableEq, Repr

/-- The HTTP errors the endpoint can raise. -/
inductive HErr where
  | notFound (detail : String)
  | internal (detail : String)
deriving DecidableEq, Repr

/-- The status code carried by each error (404 for NotFound, 500 for the
catch-all InternalError). -/
def statusCode : HErr → ℕ
  | .notFound _ => 404
  | .internal _ => 500

/-- The biomarker panel document; the source reads only its `results` list of
lab-entry dicts. -/
structure BioDoc where
  results : Option (List Doc)
deriving DecidableEq, Repr

/-- The record-store view of one subject at request time: the five fetched
records (`none` = record absent) plus whether the final persistence write
fails (`some msg` = the write raises with that message). -/
structure Store where
  user : Option Doc
  measurements : Option Doc
  hypertension : Option Doc
  biomarkers : Option BioDoc
  medications : Option Doc
  writeFail : Option String
deriving DecidableEq, Repr

/-- Latest biomarker `results` list: absent panel or absent key gives `[]`
(`biomarkers.get("results", [])` on the `{}` default). -/
def bioResults (st : Store) : List Doc :=
  match st.biomarkers with
  | none => []
  | some b => b.results.getD []

/-- `features[k]` on the assembled dict (always present in the source). -/
def fvGet (fv : List (String × ℚ)) (k : String) : ℚ :=
  ((fv.find? (fun p => p.1 = k)).map (fun p => p.2)).getD 0

/-- Lines 150-162: the derived descriptive fields. -/
def mkDerived (fv : List (String × ℚ)) (bmi : ℚ) : DerivedFeatures :=
  { age_group := ageGroupLabel (fvGet fv "age_group")
    smoker_status := smokerLabel (fvGet fv "smoker_status")
    is_obese := decide (fvGet fv "is_obese" ≠ 0)
    bp_category := bpCategoryLabel (fvGet fv "bp_category")
    bmi_category := bmiCategoryLabel (fvGet fv "bmi_category")
    bmi := bmi
    pulse_pressure := fvGet fv "sysBP" - fvGet fv "diaBP"
    male_smoker := decide (fvGet fv "male_smoker" ≠ 0)
    prediabetes_indicator := decide (fvGet fv "prediabetes_indicator" ≠ 0)
    insulin_resistance := decide (fvGet fv "insulin_resistance" ≠ 0)
    metabolic_syndrome := decide (fvGet fv "metabolic_syndrome" ≠ 0) }

instance {ε α : Type} [DecidableEq ε] [DecidableEq α] : DecidableEq (Except ε α) :=
  fun x y =>
  match x, y with
  | .ok a, .ok b =>
    if h : a = b then isTrue (by rw [h])
    else isFalse (by intro hc; cases hc; exact h rfl)
  | .error e, .error f =>
    if h : e = f then isTrue (by rw [h])
    else isFalse (by intro hc; cases hc; exact h rfl)
  | .ok _, .error _ => isFalse (by intro hc; cases hc)
  | .error _, .ok _ => isFalse (by intro hc; cases hc)

/-- What one request does: the HTTP response, the prediction documents
written under the subject, and how many classifier inferences ran. -/
structure AssessOutcome where
  response : Except HErr RiskPredictionOutput
  savedDocs : List RiskPredictionOutput
  inferenceCalls : ℕ
deriving DecidableEq, Repr

/-- Lines 22-188: the whole `assess_risk` endpoint.  `A`/`B` are the diabetes
and hypertension pipelines, `mA`/`mB` the classifiers as seen by the
explainer, `namesA`/`namesB` the loaded selected-feature name lists, and
`fbA`/`fbB` the fallback index draws.  NotFound/HTTPException passes through;
every other exception is converted to a 500 InternalError (lines 185-188). -/
def assessRisk (A B : Pipeline) (mA mB : MLModel) (namesA namesB : List String)
    (fbA fbB : List ℕ) (st : Store) : AssessOutcome :=
  match st.user with
  | none => ⟨.error (.notFound "User not found"), [], 0⟩
  | some user =>
    match st.measurements with
    | none => ⟨.error (.notFound "Missing measurements"), [], 0⟩
    | some meas =>
      if meas.isEmpty then ⟨.error (.notFound "Missing measurements"), [], 0⟩
      else
        match assembleFeatures user meas (st.hypertension.getD [])
            (st.medications.getD []) (bioResults st) with
        | .error e => ⟨.error (.internal e), [], 0⟩
        | .ok (bmi, fv) =>
          match reindex A.schema (fv ++ [("hypertension", 1/2)]) with
          | .error e => ⟨.error (.internal e), [], 0⟩
          | .ok xdia =>
            match reindex B.schema (fv ++ [("diabetes", A.run xdia)]) with
            | .error e => ⟨.error (.internal e), [], 1⟩
            | .ok xhyp =>
              let result : RiskPredictionOutput :=
                { diabetes_risk := roundTo 2 (A.run xdia * 100)
                  hypertension_risk := roundTo 2 (B.run xhyp * 100)
                  derived_features := mkDerived fv bmi
                  input_values := fv
                  top_diabetes_features := topFeatures mA namesA fbA
                  top_hypertension_features := topFeatures mB namesB fbB }
              match st.writeFail with
              | some msg => ⟨.error (.internal msg), [], 2⟩
              | none => ⟨.ok result, [result], 2⟩

/- ------------------------------------------------------------------ -/
/- Concrete fixtures used by witnesses and counterexamples             -/
/- ------------------------------------------------------------------ -/

/-- A constant test pipeline: one declared column, identity scaler and
selector, constant positive-class probability 1/2. -/
def cpA : Pipeline :=
  { schema := ["sysBP"], scale := id, select := id, predictProba1 := fun _ => 1/2 }

/-- A profile document carrying only a gender. -/
def sampleUser : Doc := [("gender", .str "male")]

/-- A non-empty measurement snapshot without a `bmi` field. -/
def sampleMeas : Doc := [("height", .num 170)]

/-- A subject with profile and measurements but no optional records; the
persistence write succeeds. -/
def sampleStore : Store :=
  { user := some sampleUser, measurements := some sampleMeas,
    hypertension := none, biomarkers := none, medications := none,
    writeFail := none }

/-- The feature vector the source assembles for `sampleStore`. -/
def sampleFV : List (String × ℚ) :=
  [("male", 1), ("BPMeds", 0), ("totChol", 180), ("sysBP", 120), ("diaBP", 80),
   ("heartRate", 72), ("glucose", 100), ("age_group", 1), ("smoker_status", 0),
   ("is_obese", 0), ("bp_category", 0), ("bmi_category", 2), ("male_smoker", 0),
   ("prediabetes_indicator", 0), ("insulin_resistance", 0),
   ("metabolic_syndrome", 0)]

/-- The prediction result computed for `sampleStore` under `cpA` pipelines
and signal-free classifiers. -/
def sampleResult : RiskPredictionOutput :=
  { diabetes_risk := 50, hypertension_risk := 50
    derived_features := mkDerived sampleFV 25
    input_values := sampleFV
    top_diabetes_features := topFeatures (.single .noSignal) ["sysBP"] [0]
    top_hypertension_features := topFeatures (.single .noSignal) ["sysBP"] [0] }

/-- `sampleStore` but the persistence write raises with message "boom". -/
def sampleStoreWF : Store := { sampleStore with writeFail := some "boom" }

/- ------------------------------------------------------------------ -/
/- Rounding kit                                                        -/
/- ------------------------------------------------------------------ -/

lemma ratFloor_eq_floor (x : ℚ) : ratFloor x = ⌊x⌋ := Rat.floor_def.symm

lemma roundHalfEven_eq_floor_or (x : ℚ) :
    roundHalfEven x = ⌊x⌋ ∨ roundHalfEven x = ⌊x⌋ + 1 := by
  unfold roundHalfEven
  simp only [ratFloor_eq_floor]
  split_ifs <;> simp

lemma abs_roundHalfEven_sub_le (x : ℚ) : |(roundHalfEven x : ℚ) - x| ≤ 1/2 := by
  have h0 : (⌊x⌋ : ℚ) ≤ x := Int.floor_le x
  have h1 : x < (⌊x⌋ : ℚ) + 1 := Int.lt_floor_add_one x
  unfold roundHalfEven
  simp only [ratFloor_eq_floor]
  split_ifs with hr1 hr2 hr3 <;> rw [abs_le] <;> push_cast <;> constructor <;> linarith

lemma roundTo_mul_pow (d : ℕ) (x : ℚ) :
    roundTo d x * 10 ^ d = (roundHalfEven (x * 10 ^ d) : ℚ) := by
  unfold roundTo
  have h : (10 : ℚ) ^ d ≠ 0 := by positivity
  field_simp

lemma abs_roundTo_sub_le (d : ℕ) (x : ℚ) :
    |roundTo d x - x| ≤ 1 / (2 * 10 ^ d) := by
  have hpow : (0 : ℚ) < 10 ^ d := by positivity
  have h := abs_roundHalfEven_sub_le (x * 10 ^ d)
  unfold roundTo
  have heq : (roundHalfEven (x * 10 ^ d) : ℚ) / 10 ^ d - x
      = ((roundHalfEven (x * 10 ^ d) : ℚ) - x * 10 ^ d) / 10 ^ d := by
    field_simp
    ring
  rw [heq, abs_div, abs_of_pos hpow, div_le_div_iff hpow (by positivity)]
  calc |(roundHalfEven (x * 10 ^ d) : ℚ) - x * 10 ^ d| * (2 * 10 ^ d)
      ≤ (1/2) * (2 * 10 ^ d) := by
        apply mul_le_mul_of_nonneg_right h (by positivity)
    _ = 1 * 10 ^ d := by ring

lemma roundHalfEven_nonneg {x : ℚ} (hx : 0 ≤ x) : 0 ≤ roundHalfEven x := by
  have hf : (0 : ℤ) ≤ ⌊x⌋ := Int.floor_nonneg.mpr hx
  rcases roundHalfEven_eq_floor_or x with h | h <;> omega

lemma roundTo_nonneg (d : ℕ) {x : ℚ} (hx : 0 ≤ x) : 0 ≤ roundTo d x := by
  unfold roundTo
  have := roundHalfEven_nonneg (x := x * 10 ^ d) (by positivity)
  positivity

lemma roundHalfEven_le_of_le {x : ℚ} {m : ℤ} (h : x ≤ m) : roundHalfEven x ≤ m := by
  have h0 : (⌊x⌋ : ℚ) ≤ x := Int.floor_le x
  have hfm : ⌊x⌋ ≤ m := by
    have := Int.floor_le_floor (α := ℚ) h
    simpa using this
  unfold roundHalfEven
  simp only [ratFloor_eq_floor]
  split_ifs with hr1 hr2 hr3
  · exact hfm
  · have hlt : (⌊x⌋ : ℚ) < x := by linarith
    have : (⌊x⌋ : ℚ) < (m : ℚ) := lt_of_lt_of_le hlt h
    have : ⌊x⌋ < m := by exact_mod_cast this
    omega
  · exact hfm
  · have hr : x - (⌊x⌋ : ℚ) = 1/2 := le_antisymm (not_lt.mp hr2) (not_lt.mp hr1)
    have hlt : (⌊x⌋ : ℚ) < x := by linarith
    have : (⌊x⌋ : ℚ) < (m : ℚ) := lt_of_lt_of_le hlt h
    have : ⌊x⌋ < m := by exact_mod_cast this
    omega

lemma roundTo_le_of_le (d : ℕ) {x : ℚ} {m : ℤ} (h : x ≤ m) : roundTo d x ≤ m := by
  have hpow : (0 : ℚ) < 10 ^ d := by positivity
  have hx : x * 10 ^ d ≤ ((m * 10 ^ d : ℤ) : ℚ) := by
    push_cast
    exact mul_le_mul_of_nonneg_right h (le_of_lt hpow)
  have := roundHalfEven_le_of_le hx
  unfold roundTo
  rw [div_le_iff hpow]
  calc (roundHalfEven (x * 10 ^ d) : ℚ) ≤ ((m * 10 ^ d : ℤ) : ℚ) := by exact_mod_cast this
    _ = m * 10 ^ d := by push_cast; ring

lemma roundTo1_three_sum {a b c : ℚ} (h : a + b + c = 100) :
    |roundTo 1 a + roundTo 1 b + roundTo 1 c - 100| ≤ 1/10 := by
  set S := roundTo 1 a + roundTo 1 b + roundTo 1 c with hS
  have ha := abs_roundTo_sub_le 1 a
  have hb := abs_roundTo_sub_le 1 b
  have hc := abs_roundTo_sub_le 1 c
  have hbound : |S - 100| ≤ 3/20 := by
    have : S - 100 = (roundTo 1 a - a) + (roundTo 1 b - b) + (roundTo 1 c - c) := by
      rw [hS]; linarith
    rw [this]
    calc |(roundTo 1 a - a) + (roundTo 1 b - b) + (roundTo 1 c - c)|
        ≤ |(roundTo 1 a - a) + (roundTo 1 b - b)| + |roundTo 1 c - c| := abs_add _ _
      _ ≤ |roundTo 1 a - a| + |roundTo 1 b - b| + |roundTo 1 c - c| := by
          have := abs_add (roundTo 1 a - a) (roundTo 1 b - b)
          linarith
      _ ≤ 3/20 := by norm_num at ha hb hc ⊢; linarith
  set k : ℤ := roundHalfEven (a * 10 ^ 1) + roundHalfEven (b * 10 ^ 1)
      + roundHalfEven (c * 10 ^ 1) with hk
  have hSk : S = (k : ℚ) / 10 := by
    have ha' := roundTo_mul_pow 1 a
    have hb' := roundTo_mul_pow 1 b
    have hc' := roundTo_mul_pow 1 c
    rw [hS, hk]
    push_cast
    norm_num at ha' hb' hc' ⊢
    linarith
  have habs : |((k - 1000 : ℤ) : ℚ)| ≤ 3/2 := by
    have : ((k - 1000 : ℤ) : ℚ) = (S - 100) * 10 := by
      rw [hSk]; push_cast; ring
    rw [this, abs_mul]
    norm_num
    linarith [hbound]
  have hint : |k - 1000| ≤ 1 := by
    have h2 : |((k - 1000 : ℤ) : ℚ)| < 2 := lt_of_le_of_lt habs (by norm_num)
    have h3 : |k - 1000| < 2 := by
      rw [← Int.cast_abs] at h2
      exact_mod_cast h2
    omega
  have : |S - 100| = |((k - 1000 : ℤ) : ℚ)| / 10 := by
    rw [hSk]
    push_cast
    rw [show (k : ℚ) / 10 - 100 = ((k : ℚ) - 1000) / 10 by ring, abs_div]
    norm_num
  rw [this]
  rw [← Int.cast_abs]
  have : ((|k - 1000| : ℤ) : ℚ) ≤ 1 := by exact_mod_cast hint
  linarith

/- ------------------------------------------------------------------ -/
/- C3: BMI bucketing                                                   -/
/- ------------------------------------------------------------------ -/

/-- C3: BMI bucketing is a total partition: for every (rational-modelled)
bmi, `bmi_category` is exactly one of 0,1,2,3, the four buckets are
characterized by the half-open intervals below 18.5, [18.5, 25), [25, 30)
and at-least 30, and the boundary points land upward: bmi = 18.5 gives
category 1, bmi = 30 gives category 3 with is_obese = 1. -/
theorem claim_C3_bmi_partition (bmi : ℚ) :
    (bmiCategory bmi = 0 ∨ bmiCategory bmi = 1 ∨ bmiCategory bmi = 2
      ∨ bmiCategory bmi = 3) ∧
    (bmiCategory bmi = 0 ↔ bmi < 37/2) ∧
    (bmiCategory bmi = 1 ↔ 37/2 ≤ bmi ∧ bmi < 25) ∧
    (bmiCategory bmi = 2 ↔ 25 ≤ bmi ∧ bmi < 30) ∧
    (bmiCategory bmi = 3 ↔ 30 ≤ bmi) ∧
    (isObese bmi = 1 ↔ 30 ≤ bmi) ∧
    bmiCategory (37/2) = 1 ∧ bmiCategory 30 = 3 ∧ isObese 30 = 1 := by
  refine ⟨?_, ?_, ?_, ?_, ?_, ?_, by norm_num [bmiCategory],
    by norm_num [bmiCategory], by norm_num [isObese]⟩ <;>
    simp only [bmiCategory, isObese] <;>
    split_ifs <;>
    norm_num <;>
    first
      | linarith
      | (constructor <;> linarith)
      | (intro h; linarith)
      | (rintro ⟨ha, hb⟩; linarith)

/- ------------------------------------------------------------------ -/
/- C2: missing-data defaulting                                         -/
/- ------------------------------------------------------------------ -/

/-- C2: for a subject whose profile and measurement snapshot exist, but
whose profile carries no age-group or smoker-status field, whose snapshot
carries no bmi, and who has no hypertension record, no biomarker panel and
no medication record, the feature assembly succeeds (does not raise) and
uses exactly the documented defaults: male from the profile gender,
BPMeds 0, totChol 180, sysBP 120, diaBP 80, heartRate 72, glucose 100,
age_group 1, smoker_status 0, bp_category 0, the three indicator flags 0,
and bmi defaulting to 25.0, which derives bmi_category 2 and is_obese 0. -/
theorem claim_C2_defaults (st : Store) (u meas : Doc)
    (hu : st.user = some u)
    (hag : docGet u "age_group" = none)
    (hsm : docGet u "smoker_status" = none)
    (hm : st.measurements = some meas)
    (hbmi : docGet meas "bmi" = none)
    (hhyp : st.hypertension = none)
    (hbio : st.biomarkers = none)
    (hmed : st.medications = none) :
    assembleFeatures u meas (st.hypertension.getD []) (st.medications.getD [])
        (bioResults st) =
      .ok (25,
        [("male", if docGet u "gender" = some (.str "male") then (1 : ℚ) else 0),
         ("BPMeds", 0), ("totChol", 180), ("sysBP", 120), ("diaBP", 80),
         ("heartRate", 72), ("glucose", 100), ("age_group", 1),
         ("smoker_status", 0), ("is_obese", 0), ("bp_category", 0),
         ("bmi_category", 2), ("male_smoker", 0), ("prediabetes_indicator", 0),
         ("insulin_resistance", 0), ("metabolic_syndrome", 0)]) := by
  rw [hhyp, hmed]
  have hbr : bioResults st = [] := by simp [bioResults, hbio]
  rw [hbr]
  simp only [Option.getD]
  unfold assembleFeatures buildFeatures
  rw [hbmi]
  simp only [Option.getD, asNum, bind, Except.bind]
  norm_num [bmiCategory, isObese]
  unfold labFloat pyMaleSmoker
  rw [hag, hsm]
  simp only [docGet, List.find?, Option.getD, pyInt, pyFloat]
  norm_num

/-- Witness for C2 at a concrete subject. -/
theorem claim_C2_witness :
    assembleFeatures sampleUser sampleMeas (sampleStore.hypertension.getD [])
        (sampleStore.medications.getD []) (bioResults sampleStore) =
      .ok (25,
        [("male", if docGet sampleUser "gender" = some (.str "male")
            then (1 : ℚ) else 0),
         ("BPMeds", 0), ("totChol", 180), ("sysBP", 120), ("diaBP", 80),
         ("heartRate", 72), ("glucose", 100), ("age_group", 1),
         ("smoker_status", 0), ("is_obese", 0), ("bp_category", 0),
         ("bmi_category", 2), ("male_smoker", 0), ("prediabetes_indicator", 0),
         ("insulin_resistance", 0), ("metabolic_syndrome", 0)]) :=
  claim_C2_defaults sampleStore sampleUser sampleMeas rfl (by decide) (by decide)
    rfl (by decide) rfl rfl rfl

/- ------------------------------------------------------------------ -/
/- C10 and C4: the mandatory-record checks                             -/
/- ------------------------------------------------------------------ -/

/-- C10: a measurement snapshot that exists but converts to an empty mapping
is treated like an absent one: the endpoint fails with NotFound (404,
detail "Missing measurements") and no prediction document is created and
no inference runs. -/
theorem claim_C10_empty_measurements (A B : Pipeline) (mA mB : MLModel)
    (namesA namesB : List String) (fbA fbB : List ℕ) (st : Store) (u : Doc)
    (hu : st.user = some u) (hm : st.measurements = some []) :
    (assessRisk A B mA mB namesA namesB fbA fbB st).response
        = .error (.notFound "Missing measurements") ∧
    (assessRisk A B mA mB namesA namesB fbA fbB st).savedDocs = [] ∧
    (assessRisk A B mA mB namesA namesB fbA fbB st).inferenceCalls = 0 ∧
    statusCode (.notFound "Missing measurements") = 404 := by
  simp [assessRisk, hu, hm, statusCode]

/-- A subject whose profile exists but whose measurement snapshot is an
empty document. -/
def stEmptyMeas : Store := { sampleStore with measurements := some [] }

/-- A record store with no document at all for the subject. -/
def stNoUser : Store :=
  { user := none, measurements := none, hypertension := none,
    biomarkers := none, medications := none, writeFail := none }

/-- Witness for C10 at a concrete store. -/
theorem claim_C10_witness :
    (assessRisk cpA cpA (.single .noSignal) (.single .noSignal) ["sysBP"]
        ["sysBP"] [0] [0] stEmptyMeas).response
      = .error (.notFound "Missing measurements") ∧
    (assessRisk cpA cpA (.single .noSignal) (.single .noSignal) ["sysBP"]
        ["sysBP"] [0] [0] stEmptyMeas).savedDocs = [] ∧
    (assessRisk cpA cpA (.single .noSignal) (.single .noSignal) ["sysBP"]
        ["sysBP"] [0] [0] stEmptyMeas).inferenceCalls = 0 ∧
    statusCode (.notFound "Missing measurements") = 404 :=
  claim_C10_empty_measurements cpA cpA (.single .noSignal) (.single .noSignal)
    ["sysBP"] ["sysBP"] [0] [0] stEmptyMeas sampleUser rfl rfl

/-- C4: the endpoint responds NotFound exactly when the profile document is
absent or the measurement snapshot is absent or empty; in that case nothing
is persisted and no inference runs (so absence of the hypertension,
biomarker or medication records alone never produces NotFound). -/
theorem claim_C4_notfound_iff (A B : Pipeline) (mA mB : MLModel)
    (namesA namesB : List String) (fbA fbB : List ℕ) (st : Store) :
    ((∃ d, (assessRisk A B mA mB namesA namesB fbA fbB st).response
        = .error (.notFound d)) ↔
      (st.user = none ∨ st.measurements = none ∨ st.measurements = some [])) ∧
    ((st.user = none ∨ st.measurements = none ∨ st.measurements = some []) →
      (assessRisk A B mA mB namesA namesB fbA fbB st).savedDocs = [] ∧
      (assessRisk A B mA mB namesA namesB fbA fbB st).inferenceCalls = 0) := by
  constructor
  · constructor
    · intro ⟨d, hd⟩
      by_contra hc
      push_neg at hc
      obtain ⟨hu, hm, hme⟩ := hc
      rcases h1 : st.user with _ | u
      · exact hu h1
      rcases h2 : st.measurements with _ | meas
      · exact hm h2
      have hne : meas ≠ [] := by
        intro h
        exact hme (h ▸ h2)
      have hemp : meas.isEmpty = false := by
        cases meas
        · exact absurd rfl hne
        · rfl
      rw [assessRisk] at hd
      simp only [h1, h2, hemp, Bool.false_eq_true, if_false] at hd
      split at hd
      · simp at hd
      · split at hd
        · simp at hd
        · split at hd
          · simp at hd
          · split at hd
            · simp at hd
            · simp at hd
    · intro h
      rcases h1 : st.user with _ | u
      · exact ⟨"User not found", by simp [assessRisk, h1]⟩
      · rcases h with h | h | h
        · rw [h1] at h
          cases h
        · exact ⟨"Missing measurements", by simp [assessRisk, h1, h]⟩
        · exact ⟨"Missing measurements", by simp [assessRisk, h1, h]⟩
  · intro h
    rcases h1 : st.user with _ | u
    · simp [assessRisk, h1]
    · rcases h with h | h | h
      · rw [h1] at h
        cases h
      · simp [assessRisk, h1, h]
      · simp [assessRisk, h1, h]

/-- Witness for C4 at a concrete store with no subject document. -/
theorem claim_C4_witness :
    (∃ d, (assessRisk cpA cpA (.single .noSignal) (.single .noSignal) ["sysBP"]
        ["sysBP"] [0] [0] stNoUser).response = .error (.notFound d)) ∧
    (assessRisk cpA cpA (.single .noSignal) (.single .noSignal) ["sysBP"]
        ["sysBP"] [0] [0] stNoUser).savedDocs = [] ∧
    (assessRisk cpA cpA (.single .noSignal) (.single .noSignal) ["sysBP"]
        ["sysBP"] [0] [0] stNoUser).inferenceCalls = 0 :=
  ⟨(claim_C4_notfound_iff cpA cpA (.single .noSignal) (.single .noSignal)
      ["sysBP"] ["sysBP"] [0] [0] stNoUser).1.mpr (Or.inl rfl),
   (claim_C4_notfound_iff cpA cpA (.single .noSignal) (.single .noSignal)
      ["sysBP"] ["sysBP"] [0] [0] stNoUser).2 (Or.inl rfl)⟩

/- ------------------------------------------------------------------ -/
/- The success path of the endpoint                                    -/
/- ------------------------------------------------------------------ -/

lemma assessRisk_ok_shape {A B : Pipeline} {mA mB : MLModel}
    {namesA namesB : List String} {fbA fbB : List ℕ} {st : Store}
    {o : RiskPredictionOutput}
    (h : (assessRisk A B mA mB namesA namesB fbA fbB st).response = .ok o) :
    ∃ u meas bmi fv xdia xhyp,
      st.user = some u ∧ st.measurements = some meas ∧ meas ≠ [] ∧
      assembleFeatures u meas (st.hypertension.getD []) (st.medications.getD [])
        (bioResults st) = .ok (bmi, fv) ∧
      reindex A.schema (fv ++ [("hypertension", 1/2)]) = .ok xdia ∧
      reindex B.schema (fv ++ [("diabetes", A.run xdia)]) = .ok xhyp ∧
      st.writeFail = none ∧
      o = { diabetes_risk := roundTo 2 (A.run xdia * 100)
            hypertension_risk := roundTo 2 (B.run xhyp * 100)
            derived_features := mkDerived fv bmi
            input_values := fv
            top_diabetes_features := topFeatures mA namesA fbA
            top_hypertension_features := topFeatures mB namesB fbB } := by
  rcases h1 : st.user with _ | u
  · simp [assessRisk, h1] at h
  rcases h2 : st.measurements with _ | meas
  · simp [assessRisk, h1, h2] at h
  by_cases hne : meas = []
  · subst hne
    simp [assessRisk, h1, h2] at h
  have hemp : meas.isEmpty = false := by
    cases meas
    · exact absurd rfl hne
    · rfl
  rw [assessRisk] at h
  simp only [h1, h2, hemp, Bool.false_eq_true, if_false] at h
  rcases h3 : assembleFeatures u meas (st.hypertension.getD [])
      (st.medications.getD []) (bioResults st) with e | ⟨bmi, fv⟩
  · simp only [h3] at h
    simp at h
  simp only [h3] at h
  rcases h4 : reindex A.schema (fv ++ [("hypertension", 1/2)]) with e | xdia
  · simp only [h4] at h
    simp at h
  simp only [h4] at h
  rcases h5 : reindex B.schema (fv ++ [("diabetes", A.run xdia)]) with e | xhyp
  · simp only [h5] at h
    simp at h
  simp only [h5] at h
  rcases h6 : st.writeFail with _ | msg
  · simp only [h6] at h
    refine ⟨u, meas, bmi, fv, xdia, xhyp, rfl, rfl, hne, h3, h4, h5, rfl, ?_⟩
    have h' : Except.ok
        ({ diabetes_risk := roundTo 2 (A.run xdia * 100)
           hypertension_risk := roundTo 2 (B.run xhyp * 100)
           derived_features := mkDerived fv bmi
           input_values := fv
           top_diabetes_features := topFeatures mA namesA fbA
           top_hypertension_features := topFeatures mB namesB fbB } :
          RiskPredictionOutput) = Except.ok o := h
    exact (Except.ok.inj h').symm
  · simp only [h6] at h
    simp at h

/- ------------------------------------------------------------------ -/
/- C1: chained two-stage inference                                     -/
/- ------------------------------------------------------------------ -/

/-- C1: whenever the endpoint answers successfully, the diabetes input was
the assembled feature vector extended with the constant feature
hypertension = 0.5 and reindexed to pipeline A's declared schema, the
hypertension input was the same feature vector extended with diabetes = the
probability pipeline A just produced and reindexed to pipeline B's schema
(so the hypertension inference necessarily runs after the diabetes one),
and the reported risks are the two pipeline probabilities scaled. -/
theorem claim_C1_chained_inference (A B : Pipeline) (mA mB : MLModel)
    (namesA namesB : List String) (fbA fbB : List ℕ) (st : Store)
    (o : RiskPredictionOutput)
    (h : (assessRisk A B mA mB namesA namesB fbA fbB st).response = .ok o) :
    ∃ u meas bmi fv xdia xhyp,
      st.user = some u ∧ st.measurements = some meas ∧
      assembleFeatures u meas (st.hypertension.getD []) (st.medications.getD [])
        (bioResults st) = .ok (bmi, fv) ∧
      reindex A.schema (fv ++ [("hypertension", 1/2)]) = .ok xdia ∧
      reindex B.schema (fv ++ [("diabetes", A.run xdia)]) = .ok xhyp ∧
      o.diabetes_risk = roundTo 2 (A.run xdia * 100) ∧
      o.hypertension_risk = roundTo 2 (B.run xhyp * 100) := by
  obtain ⟨u, meas, bmi, fv, xdia, xhyp, h1, h2, hne, h3, h4, h5, h6, ho⟩ :=
    assessRisk_ok_shape h
  exact ⟨u, meas, bmi, fv, xdia, xhyp, h1, h2, h3, h4, h5,
    by rw [ho], by rw [ho]⟩

/-- Witness for C1 at a concrete store and pipelines. -/
theorem claim_C1_witness :
    ∃ u meas bmi fv xdia xhyp,
      sampleStore.user = some u ∧ sampleStore.measurements = some meas ∧
      assembleFeatures u meas (sampleStore.hypertension.getD [])
        (sampleStore.medications.getD []) (bioResults sampleStore)
        = .ok (bmi, fv) ∧
      reindex cpA.schema (fv ++ [("hypertension", 1/2)]) = .ok xdia ∧
      reindex cpA.schema (fv ++ [("diabetes", cpA.run xdia)]) = .ok xhyp ∧
      sampleResult.diabetes_risk = roundTo 2 (cpA.run xdia * 100) ∧
      sampleResult.hypertension_risk = roundTo 2 (cpA.run xhyp * 100) :=
  claim_C1_chained_inference cpA cpA (.single .noSignal) (.single .noSignal)
    ["sysBP"] ["sysBP"] [0] [0] sampleStore sampleResult
    (by with_unfolding_all rfl)

/- ------------------------------------------------------------------ -/
/- C7: risk range and rounding                                         -/
/- ------------------------------------------------------------------ -/

/-- C7: on every successful assessment, assuming each classifier's
probability lies in [0,1], both reported risks are the probability times
100 rounded to 2 decimal places, lie in [0,100], and are exact multiples
of 1/100 (their value times 100 is an integer). -/
theorem claim_C7_risk_rounding (A B : Pipeline) (mA mB : MLModel)
    (namesA namesB : List String) (fbA fbB : List ℕ) (st : Store)
    (o : RiskPredictionOutput)
    (hA : ∀ x, 0 ≤ A.predictProba1 x ∧ A.predictProba1 x ≤ 1)
    (hB : ∀ x, 0 ≤ B.predictProba1 x ∧ B.predictProba1 x ≤ 1)
    (h : (assessRisk A B mA mB namesA namesB fbA fbB st).response = .ok o) :
    ∃ pd ph : ℚ,
      (0 ≤ pd ∧ pd ≤ 1) ∧ (0 ≤ ph ∧ ph ≤ 1) ∧
      o.diabetes_risk = roundTo 2 (pd * 100) ∧
      o.hypertension_risk = roundTo 2 (ph * 100) ∧
      0 ≤ o.diabetes_risk ∧ o.diabetes_risk ≤ 100 ∧
      0 ≤ o.hypertension_risk ∧ o.hypertension_risk ≤ 100 ∧
      (∃ k : ℤ, o.diabetes_risk * 100 = (k : ℚ)) ∧
      (∃ k : ℤ, o.hypertension_risk * 100 = (k : ℚ)) := by
  obtain ⟨u, meas, bmi, fv, xdia, xhyp, h1, h2, hne, h3, h4, h5, h6, ho⟩ :=
    assessRisk_ok_shape h
  subst ho
  have hda := hA (A.select (A.scale xdia))
  have hhb := hB (B.select (B.scale xhyp))
  have hd0 : (0 : ℚ) ≤ A.run xdia * 100 := by
    have := hda.1
    unfold Pipeline.run
    nlinarith
  have hd1 : A.run xdia * 100 ≤ ((100 : ℤ) : ℚ) := by
    have := hda.2
    unfold Pipeline.run
    push_cast
    nlinarith
  have hh0 : (0 : ℚ) ≤ B.run xhyp * 100 := by
    have := hhb.1
    unfold Pipeline.run
    nlinarith
  have hh1 : B.run xhyp * 100 ≤ ((100 : ℤ) : ℚ) := by
    have := hhb.2
    unfold Pipeline.run
    push_cast
    nlinarith
  refine ⟨A.run xdia, B.run xhyp, ⟨hda.1, hda.2⟩, ⟨hhb.1, hhb.2⟩, rfl, rfl,
    roundTo_nonneg 2 hd0, ?_, roundTo_nonneg 2 hh0, ?_, ?_, ?_⟩
  · have := roundTo_le_of_le 2 hd1
    simpa using this
  · have := roundTo_le_of_le 2 hh1
    simpa using this
  · refine ⟨roundHalfEven (A.run xdia * 100 * 10 ^ 2), ?_⟩
    have := roundTo_mul_pow 2 (A.run xdia * 100)
    simpa using this
  · refine ⟨roundHalfEven (B.run xhyp * 100 * 10 ^ 2), ?_⟩
    have := roundTo_mul_pow 2 (B.run xhyp * 100)
    simpa using this

/-- Witness for C7 at a concrete store and pipelines. -/
theorem claim_C7_witness :
    ∃ pd ph : ℚ,
      (0 ≤ pd ∧ pd ≤ 1) ∧ (0 ≤ ph ∧ ph ≤ 1) ∧
      sampleResult.diabetes_risk = roundTo 2 (pd * 100) ∧
      sampleResult.hypertension_risk = roundTo 2 (ph * 100) ∧
      0 ≤ sampleResult.diabetes_risk ∧ sampleResult.diabetes_risk ≤ 100 ∧
      0 ≤ sampleResult.hypertension_risk ∧
      sampleResult.hypertension_risk ≤ 100 ∧
      (∃ k : ℤ, sampleResult.diabetes_risk * 100 = (k : ℚ)) ∧
      (∃ k : ℤ, sampleResult.hypertension_risk * 100 = (k : ℚ)) :=
  claim_C7_risk_rounding cpA cpA (.single .noSignal) (.single .noSignal)
    ["sysBP"] ["sysBP"] [0] [0] sampleStore sampleResult
    (fun _ => by constructor <;> norm_num [cpA])
    (fun _ => by constructor <;> norm_num [cpA])
    (by with_unfolding_all rfl)

/- ------------------------------------------------------------------ -/
/- C8: persistence-write failure                                       -/
/- ------------------------------------------------------------------ -/

/-- C8 counterexample: for a subject whose entire assessment computes (the
same state with a succeeding write returns the full prediction result), a
failing persistence write does NOT let the endpoint return the result: the
response is a 500 InternalError carrying the write failure, nothing is
persisted, and the computed result is suppressed. -/
theorem claim_C8_counterexample :
    (assessRisk cpA cpA (.single .noSignal) (.single .noSignal) ["sysBP"]
        ["sysBP"] [0] [0] sampleStore).response = .ok sampleResult ∧
    (assessRisk cpA cpA (.single .noSignal) (.single .noSignal) ["sysBP"]
        ["sysBP"] [0] [0] sampleStoreWF).response
      = .error (.internal "boom") ∧
    (assessRisk cpA cpA (.single .noSignal) (.single .noSignal) ["sysBP"]
        ["sysBP"] [0] [0] sampleStoreWF).savedDocs = [] ∧
    statusCode (.internal "boom") = 500 := by
  refine ⟨by with_unfolding_all rfl, by with_unfolding_all rfl,
    by with_unfolding_all rfl, rfl⟩

/-- C8 amended: when the write fails, the endpoint does not return the
computed result; it converts the write failure into an InternalError (500)
response carrying the failure message, and persists nothing.  (The source
has no try/except or logging around the write at lines 173-181; the
catch-all at lines 185-188 turns the write exception into the 500.) -/
theorem claim_C8_write_failure (A B : Pipeline) (mA mB : MLModel)
    (namesA namesB : List String) (fbA fbB : List ℕ) (st : Store)
    (msg : String) (r : RiskPredictionOutput)
    (hw : st.writeFail = some msg)
    (h : (assessRisk A B mA mB namesA namesB fbA fbB
        { st with writeFail := none }).response = .ok r) :
    (assessRisk A B mA mB namesA namesB fbA fbB st).response
      = .error (.internal msg) ∧
    (assessRisk A B mA mB namesA namesB fbA fbB st).savedDocs = [] ∧
    statusCode (.internal msg) = 500 := by
  obtain ⟨u, meas, bmi, fv, xdia, xhyp, h1, h2, hne, h3, h4, h5, h6, ho⟩ :=
    assessRisk_ok_shape h
  have h1' : st.user = some u := h1
  have h2' : st.measurements = some meas := h2
  have h3' : assembleFeatures u meas (st.hypertension.getD [])
      (st.medications.getD []) (bioResults st) = .ok (bmi, fv) := h3
  have hemp : meas.isEmpty = false := by
    cases meas
    · exact absurd rfl hne
    · rfl
  refine ⟨?_, ?_, rfl⟩ <;>
    · rw [assessRisk]
      simp only [h1', h2', hemp, Bool.false_eq_true, if_false, h3', h4, h5, hw]

/-- Witness for the amended C8 at a concrete store. -/
theorem claim_C8_witness :
    (assessRisk cpA cpA (.single .noSignal) (.single .noSignal) ["sysBP"]
        ["sysBP"] [0] [0] sampleStoreWF).response
      = .error (.internal "boom") ∧
    (assessRisk cpA cpA (.single .noSignal) (.single .noSignal) ["sysBP"]
        ["sysBP"] [0] [0] sampleStoreWF).savedDocs = [] ∧
    statusCode (.internal "boom") = 500 :=
  claim_C8_write_failure cpA cpA (.single .noSignal) (.single .noSignal)
    ["sysBP"] ["sysBP"] [0] [0] sampleStoreWF "boom" sampleResult rfl
    (by with_unfolding_all rfl)

/- ------------------------------------------------------------------ -/
/- C9: malformed numeric fields                                        -/
/- ------------------------------------------------------------------ -/

lemma buildFeatures_systolic_error (user hyp meds : Doc) (results : List Doc)
    (bc ob : ℚ) (s : String)
    (hs : docGet hyp "systolic" = some (.str s)) :
    ∃ e, buildFeatures user hyp meds results bc ob = .error e := by
  unfold buildFeatures
  rcases hm : pyInt ((docGet meds "bp_medication").getD (.num 0)) with e | v1
  · exact ⟨e, by simp [hm, bind, Except.bind]⟩
  rcases hc : labFloat results "Cholesterol" 180 with e | v2
  · exact ⟨e, by simp [hm, hc, bind, Except.bind]⟩
  refine ⟨"could not convert string to float: " ++ s, ?_⟩
  simp [hm, hc, hs, bind, Except.bind, pyFloat]

/-- C9 amended: a fetched record with a non-numeric value in a numeric
feature field (here: hypertension systolic) makes feature assembly raise,
but the endpoint surfaces it as the catch-all InternalError (HTTP 500) —
not as a ValidationError/400; nothing is persisted and the value is never
silently coerced. -/
theorem claim_C9_malformed_numeric (A B : Pipeline) (mA mB : MLModel)
    (namesA namesB : List String) (fbA fbB : List ℕ) (st : Store)
    (u meas hyp : Doc) (s : String)
    (hu : st.user = some u) (hm : st.measurements = some meas)
    (hne : meas ≠ []) (hh : st.hypertension = some hyp)
    (hs : docGet hyp "systolic" = some (.str s)) :
    ∃ d, (assessRisk A B mA mB namesA namesB fbA fbB st).response
        = .error (.internal d) ∧
      statusCode (.internal d) = 500 ∧
      (assessRisk A B mA mB namesA namesB fbA fbB st).savedDocs = [] := by
  have hemp : meas.isEmpty = false := by
    cases meas
    · exact absurd rfl hne
    · rfl
  have hgd : st.hypertension.getD [] = hyp := by rw [hh]; rfl
  rcases hb : asNum ((docGet meas "bmi").getD (.num 25)) with e | bmi
  · have ha : assembleFeatures u meas (st.hypertension.getD [])
        (st.medications.getD []) (bioResults st) = .error e := by
      unfold assembleFeatures
      simp [hb, bind, Except.bind]
    refine ⟨e, ?_, rfl, ?_⟩ <;>
      · rw [assessRisk]
        simp only [hu, hm, hemp, Bool.false_eq_true, if_false, ha]
  · obtain ⟨e, he⟩ := buildFeatures_systolic_error u (st.hypertension.getD [])
      (st.medications.getD []) (bioResults st) (bmiCategory bmi) (isObese bmi)
      s (by rw [hgd]; exact hs)
    have ha : assembleFeatures u meas (st.hypertension.getD [])
        (st.medications.getD []) (bioResults st) = .error e := by
      unfold assembleFeatures
      simp [hb, he, bind, Except.bind]
    refine ⟨e, ?_, rfl, ?_⟩ <;>
      · rw [assessRisk]
        simp only [hu, hm, hemp, Bool.false_eq_true, if_false, ha]

/-- A store like `sampleStore` but whose latest hypertension record holds a
non-numeric systolic value. -/
def badHypStore : Store :=
  { sampleStore with hypertension := some [("systolic", .str "high")] }

/-- C9 counterexample: at a concrete malformed record the endpoint answers
with InternalError and status 500 — there is no ValidationError/400 path in
the risk endpoint (`statusCode` only takes the values 404 and 500). -/
theorem claim_C9_counterexample :
    (assessRisk cpA cpA (.single .noSignal) (.single .noSignal) ["sysBP"]
        ["sysBP"] [0] [0] badHypStore).response
      = .error (.internal "could not convert string to float: high") ∧
    statusCode (.internal "could not convert string to float: high") = 500 ∧
    (500 : ℕ) ≠ 400 ∧
    (∀ err : HErr, statusCode err = 404 ∨ statusCode err = 500) := by
  refine ⟨by with_unfolding_all rfl, rfl, by norm_num, ?_⟩
  intro err
  cases err
  · exact Or.inl rfl
  · exact Or.inr rfl

/-- Witness for the amended C9 at a concrete store. -/
theorem claim_C9_witness :
    ∃ d, (assessRisk cpA cpA (.single .noSignal) (.single .noSignal) ["sysBP"]
        ["sysBP"] [0] [0] badHypStore).response = .error (.internal d) ∧
      statusCode (.internal d) = 500 ∧
      (assessRisk cpA cpA (.single .noSignal) (.single .noSignal) ["sysBP"]
        ["sysBP"] [0] [0] badHypStore).savedDocs = [] :=
  claim_C9_malformed_numeric cpA cpA (.single .noSignal) (.single .noSignal)
    ["sysBP"] ["sysBP"] [0] [0] badHypStore sampleUser sampleMeas
    [("systolic", .str "high")] "high" rfl rfl (by decide) rfl (by decide)

/- ------------------------------------------------------------------ -/
/- argsort machinery                                                   -/
/- ------------------------------------------------------------------ -/

instance (v : List ℚ) : IsTotal ℕ (argLe v) := by
  constructor
  intro a b
  unfold argLe
  rcases lt_trichotomy (v.getD a 0) (v.getD b 0) with h | h | h
  · exact Or.inl (Or.inl h)
  · rcases le_total a b with hab | hab
    · exact Or.inl (Or.inr ⟨h, hab⟩)
    · exact Or.inr (Or.inr ⟨h.symm, hab⟩)
  · exact Or.inr (Or.inl h)

instance (v : List ℚ) : IsTrans ℕ (argLe v) := by
  constructor
  intro a b c hab hbc
  unfold argLe at hab hbc ⊢
  rcases hab with h1 | ⟨h1, h1'⟩ <;> rcases hbc with h2 | ⟨h2, h2'⟩
  · exact Or.inl (h1.trans h2)
  · exact Or.inl (h2 ▸ h1)
  · exact Or.inl (h1 ▸ h2)
  · exact Or.inr ⟨h1.trans h2, h1'.trans h2'⟩

lemma argsortAsc_perm (v : List ℚ) :
    List.Perm (argsortAsc v) (List.range v.length) :=
  List.perm_insertionSort _ _

lemma argsortAsc_sorted (v : List ℚ) : (argsortAsc v).Sorted (argLe v) :=
  List.sorted_insertionSort _ _

lemma argsortAsc_nodup (v : List ℚ) : (argsortAsc v).Nodup :=
  ((argsortAsc_perm v).nodup_iff).mpr (List.nodup_range _)

lemma mem_argsortAsc {v : List ℚ} {i : ℕ} : i ∈ argsortAsc v ↔ i < v.length := by
  rw [(argsortAsc_perm v).mem_iff, List.mem_range]

lemma argsortAsc_length (v : List ℚ) : (argsortAsc v).length = v.length := by
  rw [(argsortAsc_perm v).length_eq, List.length_range]

lemma topIdx_length (v : List ℚ) (n : ℕ) :
    (topIdx v n).length = min n v.length := by
  simp [topIdx, argsortAsc_length]

lemma topIdx_nodup (v : List ℚ) (n : ℕ) : (topIdx v n).Nodup :=
  List.Pairwise.sublist (List.take_sublist _ _)
    (List.nodup_reverse.mpr (argsortAsc_nodup v))

lemma topIdx_mem {v : List ℚ} {n i : ℕ} (h : i ∈ topIdx v n) : i < v.length :=
  mem_argsortAsc.mp (List.mem_reverse.mp (List.mem_of_mem_take h))

lemma topIdx_pairwise (v : List ℚ) (n : ℕ) :
    (topIdx v n).Pairwise (fun a b => argLe v b a) :=
  List.Pairwise.sublist (List.take_sublist _ _)
    (List.pairwise_reverse.mpr (argsortAsc_sorted v))

lemma topIdx_top {v : List ℚ} {n : ℕ} :
    ∀ j, j < v.length → j ∉ topIdx v n → ∀ a ∈ topIdx v n, argLe v j a := by
  intro j hj hnotin a ha
  have hrev : (argsortAsc v).reverse.Pairwise (fun a b => argLe v b a) :=
    List.pairwise_reverse.mpr (argsortAsc_sorted v)
  have hsplit : (argsortAsc v).reverse
      = topIdx v n ++ (argsortAsc v).reverse.drop n :=
    (List.take_append_drop n _).symm
  rw [hsplit, List.pairwise_append] at hrev
  have hjmem : j ∈ (argsortAsc v).reverse :=
    List.mem_reverse.mpr (mem_argsortAsc.mpr hj)
  rw [hsplit, List.mem_append] at hjmem
  rcases hjmem with hjt | hjd
  · exact absurd hjt hnotin
  · exact hrev.2.2 a ha j hjd

lemma zip_map_self {α β γ : Type} (l : List α) (k : α → β) (g : α × β → γ) :
    ((l.zip (l.map k)).map g) = l.map (fun a => g (a, k a)) := by
  induction l with
  | nil => rfl
  | cons a t ih => simp [ih]

lemma zip_map_snd {α β γ : Type} (l1 : List α) (l2 : List β) (f : β → γ)
    (h : l1.length = l2.length) :
    ((l1.zip l2).map (fun p => f p.2)) = l2.map f := by
  induction l1 generalizing l2 with
  | nil =>
    cases l2
    · rfl
    · simp at h
  | cons a t ih =>
    cases l2 with
    | nil => simp at h
    | cons b t2 =>
      simp only [List.zip_cons_cons, List.map_cons]
      rw [ih t2 (by simpa using h)]

lemma sum_map_div_mul (l : List ℕ) (g : ℕ → ℚ) (t : ℚ) :
    ((l.map (fun i => g i / t * 100)).sum) = ((l.map g).sum) / t * 100 := by
  induction l with
  | nil => simp
  | cons a tl ih =>
    simp only [List.map_cons, List.sum_cons, ih]
    ring

lemma branchCompute_eq {vals : List ℚ} {names : List String} (n : ℕ)
    (hlen : vals.length = names.length) :
    branchCompute vals names n = some ((topIdx vals n).map (fun i =>
      ⟨names.getD i "",
        roundTo 1 (vals.getD i 0 / max (topSum vals n) epsTotal * 100)⟩)) := by
  have hall : ∀ i ∈ topIdx vals n, i < names.length := fun i hi =>
    hlen ▸ topIdx_mem hi
  simp only [branchCompute]
  rw [if_pos (by simp only [List.all_eq_true, decide_eq_true_eq]; exact hall)]
  congr 1
  rw [List.map_map, zip_map_self]
  rfl

/- ------------------------------------------------------------------ -/
/- C5: explainer output shape                                          -/
/- ------------------------------------------------------------------ -/

lemma fallbackTop_scores (names : List String) (a b c : ℕ) :
    (fallbackTop names [a, b, c] 3).map (fun t => t.contribution_score)
      = [533/10, 333/10, 133/10] := by
  have hn : (linspace (4/5) (1/5) 3).map
      (fun v => v / (linspace (4/5) (1/5) 3).sum * 100)
        = [160/3, 100/3, 40/3] := by
    with_unfolding_all rfl
  have r1 : roundTo 1 ((160 : ℚ)/3) = 533/10 := by with_unfolding_all rfl
  have r2 : roundTo 1 ((100 : ℚ)/3) = 333/10 := by with_unfolding_all rfl
  have r3 : roundTo 1 ((40 : ℚ)/3) = 133/10 := by with_unfolding_all rfl
  simp only [fallbackTop, hn, List.zip_cons_cons, List.zip_nil_right,
    List.map_cons, List.map_nil, r1, r2, r3]

lemma topFeatures_of_none {m : MLModel} (names : List String) (fbIdx : List ℕ)
    (n : ℕ) (hex : extracted m = none) :
    topFeatures m names fbIdx n = fallbackTop names fbIdx n := by
  unfold topFeatures
  rw [hex]
  rfl

lemma topFeatures_of_extracted {m : MLModel} {ev : List ℚ}
    {names : List String} (fbIdx : List ℕ) (n : ℕ)
    (hex : extracted m = some ev) (hlen : ev.length = names.length) :
    topFeatures m names fbIdx n = (topIdx ev n).map (fun i =>
      ⟨names.getD i "",
        roundTo 1 (ev.getD i 0 / max (topSum ev n) epsTotal * 100)⟩) := by
  unfold topFeatures
  rw [hex, Option.some_bind, branchCompute_eq n hlen]

/-- C5 amended: for every explainer call with N = 3 and at least 3 feature
names, the result has exactly 3 entries with non-negative scores; and the
scores sum to 100 within 0.1 provided that, when an importance signal is
extracted, it has one value per feature name, the values are non-negative
and the selected top-3 values sum to at least the 1e-8 guard (the fallback
branch satisfies the bound unconditionally).  Without that proviso the sum
property fails on the code: see the counterexample. -/
theorem claim_C5_explainer_output (m : MLModel) (names : List String)
    (fbIdx : List ℕ)
    (hn : 3 ≤ names.length)
    (hfb : fbIdx.length = 3)
    (hext : ∀ ev, extracted m = some ev →
      ev.length = names.length ∧ (∀ v ∈ ev, 0 ≤ v) ∧ epsTotal ≤ topSum ev 3) :
    (topFeatures m names fbIdx).length = 3 ∧
    (∀ t ∈ topFeatures m names fbIdx, 0 ≤ t.contribution_score) ∧
    |((topFeatures m names fbIdx).map (fun t => t.contribution_score)).sum
        - 100| ≤ 1/10 := by
  rcases hex : extracted m with _ | ev
  · obtain ⟨a, b, c, habc⟩ := List.length_eq_three.mp hfb
    rw [topFeatures_of_none names fbIdx 3 hex, habc]
    have hs := fallbackTop_scores names a b c
    refine ⟨?_, ?_, ?_⟩
    · have := congrArg List.length hs
      simpa using this
    · intro t ht
      have hmem : t.contribution_score ∈ [(533 : ℚ)/10, 333/10, 133/10] := by
        rw [← hs]
        exact List.mem_map_of_mem _ ht
      simp only [List.mem_cons, List.not_mem_nil, or_false] at hmem
      rcases hmem with h | h | h <;> rw [h] <;> norm_num
    · rw [hs]
      norm_num [abs_le]
  · obtain ⟨hlen, hnn, hts⟩ := hext ev hex
    have hts' : max (topSum ev 3) epsTotal = topSum ev 3 := max_eq_left hts
    have hpos : 0 < topSum ev 3 :=
      lt_of_lt_of_le (by norm_num [epsTotal]) hts
    have htf := topFeatures_of_extracted fbIdx 3 hex hlen
    rw [hts'] at htf
    have hlen3 : (topIdx ev 3).length = 3 := by
      rw [topIdx_length]
      omega
    have hid : ∀ i ∈ topIdx ev 3, (0 : ℚ) ≤ ev.getD i 0 := by
      intro i hi
      have hilt : i < ev.length := topIdx_mem hi
      rw [List.getD_eq_getElem ev 0 hilt]
      exact hnn _ (List.getElem_mem hilt)
    refine ⟨?_, ?_, ?_⟩
    · rw [htf, List.length_map, hlen3]
    · intro t ht
      rw [htf] at ht
      obtain ⟨i, hi, rfl⟩ := List.mem_map.mp ht
      refine roundTo_nonneg 1 ?_
      have h1 : (0 : ℚ) ≤ ev.getD i 0 := hid i hi
      positivity
    · rw [htf, List.map_map]
      obtain ⟨a, b, c, habc⟩ := List.length_eq_three.mp hlen3
      have hsum3 : ev.getD a 0 + ev.getD b 0 + ev.getD c 0 = topSum ev 3 := by
        rw [topSum, habc]
        simp only [List.map_cons, List.map_nil, List.sum_cons, List.sum_nil]
        ring
      rw [habc]
      simp only [List.map_cons, List.map_nil, List.sum_cons, List.sum_nil,
        Function.comp]
      have hne : topSum ev 3 ≠ 0 := ne_of_gt hpos
      have hg : ev.getD a 0 / topSum ev 3 * 100 + ev.getD b 0 / topSum ev 3 * 100
          + ev.getD c 0 / topSum ev 3 * 100 = 100 := by
        have hcollect : ev.getD a 0 / topSum ev 3 * 100
            + ev.getD b 0 / topSum ev 3 * 100
            + ev.getD c 0 / topSum ev 3 * 100
            = (ev.getD a 0 + ev.getD b 0 + ev.getD c 0) / topSum ev 3 * 100 := by
          ring
        rw [hcollect, hsum3, div_self hne, one_mul]
      have := roundTo1_three_sum hg
      convert this using 2
      ring

/-- C5 counterexample: a base estimator whose three importances are all zero
(legal for a trivially-fitted tree) makes every contribution score 0, so
the returned scores sum to 0, not to 100 within 0.1. -/
theorem claim_C5_counterexample :
    ((topFeatures (.single (.withImportances [0, 0, 0])) ["a", "b", "c"]
        [0, 1, 2]).map (fun t => t.contribution_score)).sum = 0 ∧
    ¬ (|((topFeatures (.single (.withImportances [0, 0, 0])) ["a", "b", "c"]
        [0, 1, 2]).map (fun t => t.contribution_score)).sum - 100| ≤ 1/10) := by
  have h : ((topFeatures (.single (.withImportances [0, 0, 0])) ["a", "b", "c"]
      [0, 1, 2]).map (fun t => t.contribution_score)).sum = 0 := by
    with_unfolding_all rfl
  refine ⟨h, ?_⟩
  rw [h]
  norm_num

/-- Witness for the amended C5, in the fallback branch at a concrete call. -/
theorem claim_C5_witness :
    (topFeatures (.single .noSignal) ["a", "b", "c"] [2, 0, 1]).length = 3 ∧
    (∀ t ∈ topFeatures (.single .noSignal) ["a", "b", "c"] [2, 0, 1],
      0 ≤ t.contribution_score) ∧
    |((topFeatures (.single .noSignal) ["a", "b", "c"] [2, 0, 1]).map
        (fun t => t.contribution_score)).sum - 100| ≤ 1/10 :=
  claim_C5_explainer_output (.single .noSignal) ["a", "b", "c"] [2, 0, 1]
    (by norm_num) rfl (fun ev hev => by cases hev)

/- ------------------------------------------------------------------ -/
/- C6: top-N selection order and normalization                         -/
/- ------------------------------------------------------------------ -/

/-- C6 amended: when the base estimator exposes importances (or, for linear
models, the absolute values of the positive-class coefficient row — the
first two conjuncts), and the extracted values are one per feature name
with the selected top-N summing to at least the 1e-8 guard, the explainer
returns exactly the top-N indices ordered by value descending with ties
broken by REVERSE original feature order (later feature first; not original
order as claimed — see the counterexample), every unselected index compares
strictly below every selected one in that order, and each returned score is
the value divided by the sum of the selected top-N values (not the global
sum), scaled to percent and rounded to 1 decimal. -/
theorem claim_C6_top_selection (m : MLModel) (names : List String)
    (fbIdx : List ℕ) (ev : List ℚ) (n : ℕ)
    (hex : extracted m = some ev)
    (hlen : ev.length = names.length)
    (hts : epsTotal ≤ topSum ev n) :
    (∀ imp, m = .single (.withImportances imp) → extracted m = some imp) ∧
    (∀ row rest, m = .single (.withCoef (row :: rest)) →
      extracted m = some (row.map (fun x => |x|))) ∧
    ∃ idx : List ℕ,
      topFeatures m names fbIdx n = idx.map (fun i =>
        ⟨names.getD i "", roundTo 1 (ev.getD i 0 / topSum ev n * 100)⟩) ∧
      idx.length = min n ev.length ∧
      idx.Nodup ∧
      (∀ i ∈ idx, i < ev.length) ∧
      idx.Pairwise (fun i j => ev.getD j 0 < ev.getD i 0 ∨
        (ev.getD i 0 = ev.getD j 0 ∧ j < i)) ∧
      (∀ j, j < ev.length → j ∉ idx → ∀ i ∈ idx,
        ev.getD j 0 < ev.getD i 0 ∨ (ev.getD j 0 = ev.getD i 0 ∧ j < i)) := by
  refine ⟨?_, ?_, ?_⟩
  · intro imp him
    subst him
    rfl
  · intro row rest him
    subst him
    rfl
  refine ⟨topIdx ev n, ?_, topIdx_length ev n, topIdx_nodup ev n,
    fun i hi => topIdx_mem hi, ?_, ?_⟩
  · have htf := topFeatures_of_extracted fbIdx n hex hlen
    rw [max_eq_left hts] at htf
    exact htf
  · have hp := topIdx_pairwise ev n
    have hnd := topIdx_nodup ev n
    refine (hp.and hnd).imp ?_
    rintro a b ⟨hab, hne⟩
    rcases hab with h | ⟨heq, hle⟩
    · exact Or.inl h
    · exact Or.inr ⟨heq.symm, lt_of_le_of_ne hle (fun h => hne h.symm)⟩
  · intro j hj hnot i hi
    have h := topIdx_top j hj hnot i hi
    rcases h with h | ⟨heq, hle⟩
    · exact Or.inl h
    · refine Or.inr ⟨heq, lt_of_le_of_ne hle ?_⟩
      intro hji
      rw [hji] at hnot
      exact hnot hi

/-- C6 counterexample: with tied importances [5, 5, 1] over features
a, b, c, the code (np.argsort ascending stable, then reversed) returns b
before a — ties are broken by reverse original feature order, not by
original feature order as the claim states. -/
theorem claim_C6_counterexample :
    ((topFeatures (.single (.withImportances [5, 5, 1])) ["a", "b", "c"]
        [0, 1, 2]).map (fun t => t.feature_name)) = ["b", "a", "c"] ∧
    (["b", "a", "c"] : List String) ≠ ["a", "b", "c"] := by
  constructor
  · with_unfolding_all rfl
  · decide

/-- Witness for the amended C6 at a concrete model with tied importances. -/
theorem claim_C6_witness :
    (∀ imp, MLModel.single (.withImportances [5, 5, 1])
        = .single (.withImportances imp) →
      extracted (.single (.withImportances [5, 5, 1])) = some imp) ∧
    (∀ row rest, MLModel.single (.withImportances [5, 5, 1])
        = .single (.withCoef (row :: rest)) →
      extracted (.single (.withImportances [5, 5, 1]))
        = some (row.map (fun x => |x|))) ∧
    ∃ idx : List ℕ,
      topFeatures (.single (.withImportances [5, 5, 1])) ["a", "b", "c"]
          [0, 1, 2] 3
        = idx.map (fun i =>
          ⟨["a", "b", "c"].getD i "",
            roundTo 1 (([(5 : ℚ), 5, 1]).getD i 0
              / topSum [(5 : ℚ), 5, 1] 3 * 100)⟩) ∧
      idx.length = min 3 ([(5 : ℚ), 5, 1]).length ∧
      idx.Nodup ∧
      (∀ i ∈ idx, i < ([(5 : ℚ), 5, 1]).length) ∧
      idx.Pairwise (fun i j => ([(5 : ℚ), 5, 1]).getD j 0
          < ([(5 : ℚ), 5, 1]).getD i 0 ∨
        (([(5 : ℚ), 5, 1]).getD i 0 = ([(5 : ℚ), 5, 1]).getD j 0 ∧ j < i)) ∧
      (∀ j, j < ([(5 : ℚ), 5, 1]).length → j ∉ idx → ∀ i ∈ idx,
        ([(5 : ℚ), 5, 1]).getD j 0 < ([(5 : ℚ), 5, 1]).getD i 0 ∨
        (([(5 : ℚ), 5, 1]).getD j 0 = ([(5 : ℚ), 5, 1]).getD i 0 ∧ j < i)) :=
  claim_C6_top_selection (.single (.withImportances [5, 5, 1])) ["a", "b", "c"]
    [0, 1, 2] [(5 : ℚ), 5, 1] 3 rfl (by decide)
    (by with_unfolding_all decide)
